import Mathlib

set_option linter.unusedVariables false

/-!
Shallow embedding of `src/app.py` (a Streamlit AI image generator).

The embedding models the pure logic of the application: the style-preset
table, prompt composition (`prompt.strip() + style_suffix`), the
error-message classifier of `generate_image`, the bounded most-recent-first
image history, and the control flow of `main`'s generate-button branch.
Python strings are modelled as Lean `String` (a structure over `List Char`);
`str.strip()` is modelled over the character list with ASCII whitespace.
The remote inference call is a parameter (`String → Except String Img`):
`Except.ok` is a returned image, `Except.error e` is a raised exception
whose `str(e)` is `e`.
-/

/-- Whitespace test used by Python `str.strip()`: ASCII whitespace
characters (space, tab, newline, carriage return, vertical tab, form feed). -/
def pyIsSpace (c : Char) : Bool :=
  c = ' ' || c = '\t' || c = '\n' || c = '\r' || c = '\x0b' || c = '\x0c'

/-- Python `str.strip()` on the character list: drop whitespace from the
front, then from the back. -/
def stripList (l : List Char) : List Char :=
  List.rdropWhile pyIsSpace (List.dropWhile pyIsSpace l)

/-- Python `s.strip()` for a string `s`. -/
def pyStrip (s : String) : String :=
  String.mk (stripList s.data)

/-- Python `s.lower()` (ASCII case folding, as `Char.toLower`). -/
def pyLower (s : String) : String :=
  String.mk (s.data.map Char.toLower)

/-- Substring containment on character lists: `containsL needle hay` is
true iff `needle` occurs contiguously in `hay` (Python's `needle in hay`). -/
def containsL (needle : List Char) : List Char → Bool
  | [] => needle.isEmpty
  | c :: rest => needle.isPrefixOf (c :: rest) || containsL needle rest

/-- Python `needle in hay` for strings. -/
def pyContains (hay needle : String) : Bool :=
  containsL needle.data hay.data

/-- Case-insensitive substring containment (both sides lowercased);
used to state the specification's classification rule. -/
def containsCI (hay needle : String) : Bool :=
  pyContains (pyLower hay) (pyLower needle)

/-- The `STYLE_PRESETS` dictionary of `src/app.py` (lines 17-26), as an
association list in source order. -/
def STYLE_PRESETS : List (String × String) :=
  [("None", ""),
   ("Anime", ", anime style, vibrant colors, Studio Ghibli inspired, detailed illustration"),
   ("Realistic", ", photorealistic, highly detailed, 8K resolution, professional photography"),
   ("Digital Art", ", digital painting, artstation trending, concept art, highly detailed"),
   ("Watercolor", ", watercolor painting, soft colors, artistic, delicate brushstrokes"),
   ("Oil Painting", ", oil painting, classical art style, textured canvas, rich colors"),
   ("Cyberpunk", ", cyberpunk style, neon lights, futuristic, sci-fi, dark atmosphere"),
   ("Fantasy", ", fantasy art, magical, enchanted, epic scene, mystical atmosphere")]

/-- Dictionary lookup `STYLE_PRESETS[styleKey]`; `none` models a `KeyError`. -/
def stylePresetLookup (styleKey : String) : Option String :=
  (STYLE_PRESETS.find? (fun kv => kv.fst == styleKey)).map Prod.snd

/-- Prompt composition of `main` (lines 149-150):
`enhanced_prompt = prompt.strip() + STYLE_PRESETS[selected_style]`.
`none` models a `KeyError` on an unrecognized key. -/
def composePrompt (rawPrompt styleKey : String) : Option String :=
  (stylePresetLookup styleKey).map (fun style_suffix => pyStrip rawPrompt ++ style_suffix)

/-- The four error classes of `generate_image`'s exception handler
(lines 56-63 of `src/app.py`). -/
inductive ErrorKind where
  | ModelLoading
  | RateLimited
  | Unauthorized
  | Unknown
deriving DecidableEq

/-- The classifier implemented by the `if`/`elif` chain of `generate_image`
(lines 56-63): substring checks on `str(e)`, first match wins. -/
def classifyError (error_msg : String) : ErrorKind :=
  if pyContains error_msg "503" || pyContains (pyLower error_msg) "loading" then
    ErrorKind.ModelLoading
  else if pyContains error_msg "429" || pyContains (pyLower error_msg) "rate limit" then
    ErrorKind.RateLimited
  else if pyContains error_msg "401" || pyContains (pyLower error_msg) "unauthorized" then
    ErrorKind.Unauthorized
  else
    ErrorKind.Unknown

/-- Classification as the specification words it: every substring check is
case-insensitive, same needles, same first-match-wins precedence.
Stated separately from `classifyError` so that the code's classifier can be
proved to refine the specification's. -/
def specClassifyError (error_msg : String) : ErrorKind :=
  if containsCI error_msg "503" || containsCI error_msg "loading" then
    ErrorKind.ModelLoading
  else if containsCI error_msg "429" || containsCI error_msg "rate limit" then
    ErrorKind.RateLimited
  else if containsCI error_msg "401" || containsCI error_msg "unauthorized" then
    ErrorKind.Unauthorized
  else
    ErrorKind.Unknown

/-- The user-facing message shown by `st.error` in `generate_image`
(lines 56-63); the `Unknown` branch surfaces the raw message. -/
def errorDisplay (error_msg : String) : String :=
  if pyContains error_msg "503" || pyContains (pyLower error_msg) "loading" then
    "⏳ Model is currently loading. Please wait a moment and try again."
  else if pyContains error_msg "429" || pyContains (pyLower error_msg) "rate limit" then
    "⚠️ Rate limit reached. Please wait a few minutes before trying again."
  else if pyContains error_msg "401" || pyContains (pyLower error_msg) "unauthorized" then
    "🔒 Authentication failed. Please check your HuggingFace token has \x27Write\x27 permissions."
  else
    "❌ An error occurred: " ++ error_msg

/-- Return value of `generate_image` (lines 38-65): the image on success,
`None` (modelled `none`) when the remote call raised. -/
def generate_image {Img : Type} (result : Except String Img) : Option Img :=
  match result with
  | Except.ok image => some image
  | Except.error _ => none

/-- One entry of `st.session_state.image_history`: the dict built at
lines 164-170 of `src/app.py`, fields in source order. -/
structure GenerationRecord (Img : Type) where
  image : Img
  prompt : String
  enhanced_prompt : String
  style : String
  timestamp : Nat
deriving DecidableEq

/-- History push of `main` (lines 171-175): insert at index 0, then
truncate to the first 10 when the length exceeds 10. -/
def pushRecord {Img : Type} (record : GenerationRecord Img)
    (history : List (GenerationRecord Img)) : List (GenerationRecord Img) :=
  let inserted := record :: history
  if inserted.length > 10 then inserted.take 10 else inserted

/-- History clear (lines 204-206): `st.session_state.image_history = []`. -/
def clearHistory {Img : Type} (history : List (GenerationRecord Img)) :
    List (GenerationRecord Img) := []

/-- Reading the history for display (line 210 iterates it in order). -/
def listHistory {Img : Type} (history : List (GenerationRecord Img)) :
    List (GenerationRecord Img) := history

/-- Outcome of one press of the generate button, as surfaced to the user. -/
inductive GenOutcome (Img : Type) where
  | warned
  | failed (kind : ErrorKind) (display : String)
  | succeeded (record : GenerationRecord Img)
deriving DecidableEq

/-- The generate-button branch of `main` (lines 144-175).
Empty-after-strip prompt: `st.warning`, nothing else happens. Otherwise the
enhanced prompt is composed (`none` models the impossible `KeyError`), the
remote call is made once, a failure leaves the history untouched, and a
success pushes the new record built at lines 164-170. -/
def handleGenerate {Img : Type} (remote : String → Except String Img)
    (prompt selectedStyle : String) (now : Nat)
    (history : List (GenerationRecord Img)) :
    Option (GenOutcome Img × List (GenerationRecord Img)) :=
  if pyStrip prompt = "" then
    some (GenOutcome.warned, history)
  else
    match composePrompt prompt selectedStyle with
    | none => none
    | some enhanced_prompt =>
      match remote enhanced_prompt with
      | Except.error e =>
        some (GenOutcome.failed (classifyError e) (errorDisplay e), history)
      | Except.ok image =>
        let record : GenerationRecord Img :=
          ⟨image, pyStrip prompt, enhanced_prompt, selectedStyle, now⟩
        some (GenOutcome.succeeded record, pushRecord record history)

/-- One user interaction touching the history: a press of the generate
button (with the remote service's behaviour for that request), or a press
of the clear-history button. -/
inductive Event (Img : Type) where
  | gen (remote : String → Except String Img) (prompt selectedStyle : String) (now : Nat)
  | clear

/-- Effect of one event on the history. -/
def applyEvent {Img : Type} (e : Event Img) (history : List (GenerationRecord Img)) :
    Option (List (GenerationRecord Img)) :=
  match e with
  | Event.gen remote prompt selectedStyle now =>
    (handleGenerate remote prompt selectedStyle now history).map Prod.snd
  | Event.clear => some (clearHistory history)

/-- Histories reachable in a session: `image_history` starts `[]`
(line 70) and is only changed by `applyEvent`. -/
inductive Reachable {Img : Type} : List (GenerationRecord Img) → Prop where
  | init : Reachable []
  | step : ∀ (e : Event Img) (h h' : List (GenerationRecord Img)),
      Reachable h → applyEvent e h = some h' → Reachable h'

/-- Well-formedness of a stored record: its enhanced prompt is its stored
prompt followed by the suffix its stored style maps to, and its stored
prompt is already stripped. -/
def recordWF {Img : Type} (r : GenerationRecord Img) : Prop :=
  (∃ style_suffix : String, stylePresetLookup r.style = some style_suffix ∧
      r.enhanced_prompt = r.prompt ++ style_suffix)
  ∧ pyStrip r.prompt = r.prompt

/-- Python truthiness of `not HUGGINGFACE_TOKEN` (line 77): true when the
environment variable is absent (`os.getenv` returned `None`) or empty. -/
def tokenMissing (token : Option String) : Bool :=
  match token with
  | none => true
  | some t => t == ""

/-- The `st.error` text shown when the token is missing (line 78); it is
followed by `st.info` setup instructions and `st.stop()`. -/
def missingTokenError : String := "⚠️ HuggingFace API token not found!"

/-- A whole interactive session of `main`: the token check at lines 77-85
halts the script (`st.stop()`) before any interaction when the token is
missing; otherwise the events are processed in order starting from the
empty history. Result: the startup error message (if any) and the final
history; `none` models an uncaught exception. -/
def runSession {Img : Type} (token : Option String) (events : List (Event Img)) :
    Option (Option String × List (GenerationRecord Img)) :=
  if tokenMissing token then
    some (some missingTokenError, [])
  else
    (events.foldlM (fun h e => applyEvent e h) []).map (fun h => (none, h))

/-- `stripList` is idempotent. -/
theorem stripList_idem (l : List Char) : stripList (stripList l) = stripList l := by
  unfold stripList
  have h1 : (List.rdropWhile pyIsSpace (List.dropWhile pyIsSpace l)).dropWhile pyIsSpace
      = List.rdropWhile pyIsSpace (List.dropWhile pyIsSpace l) := by
    rcases hx : List.rdropWhile pyIsSpace (List.dropWhile pyIsSpace l) with _ | ⟨a, t⟩
    · rfl
    · have hpre := List.rdropWhile_prefix pyIsSpace (List.dropWhile pyIsSpace l)
      rw [hx] at hpre
      have hne : (a :: t : List Char) ≠ [] := by simp
      have hwne : List.dropWhile pyIsSpace l ≠ [] := hpre.ne_nil hne
      have hh := List.IsPrefix.head hpre hne
      have hnotp := List.head_dropWhile_not pyIsSpace l hwne
      rw [← hh] at hnotp
      simp only [List.head_cons] at hnotp
      simp [List.dropWhile_cons, hnotp]
  rw [h1, List.rdropWhile_idempotent]

/-- `pyStrip` is idempotent (Python `s.strip().strip() == s.strip()`). -/
theorem pyStrip_idem (s : String) : pyStrip (pyStrip s) = pyStrip s :=
  congrArg String.mk (stripList_idem s.data)

/-- `Char.ofNat` round-trips on small codepoints. -/
theorem char_toNat_ofNat_small (n : Nat) (h : n < 55296) : (Char.ofNat n).toNat = n := by
  have hv : Nat.isValidChar n := Or.inl h
  unfold Char.ofNat
  rw [dif_pos hv]
  rfl

/-- For a target below codepoint 65 (digits in particular), lowering a
character yields it iff the character is it. -/
theorem toLower_eq_iff_of_small (c : Char) (hc : c.toNat < 65) (d : Char) :
    d.toLower = c ↔ d = c := by
  constructor
  · intro h
    by_cases h65 : 65 ≤ d.toNat ∧ d.toNat ≤ 90
    · exfalso
      have hv : (Char.ofNat (d.toNat + 32)).toNat = d.toNat + 32 :=
        char_toNat_ofNat_small (d.toNat + 32) (by omega)
      have hd : d.toLower = Char.ofNat (d.toNat + 32) := by
        unfold Char.toLower
        rw [if_pos]
        exact ⟨h65.1, h65.2⟩
      rw [hd] at h
      have := congrArg Char.toNat h
      rw [hv] at this
      omega
    · have hd : d.toLower = d := by
        unfold Char.toLower
        rw [if_neg]
        exact fun hx => h65 ⟨hx.1, hx.2⟩
      rw [hd] at h
      exact h
  · intro h
    subst h
    unfold Char.toLower
    rw [if_neg]
    intro hx
    omega

/-- Prefix testing is unaffected by lowering the haystack when every
needle character is fixed by (and uniquely reached by) `Char.toLower`. -/
theorem isPrefixOf_map_toLower (needle : List Char)
    (hfix : ∀ c ∈ needle, ∀ d : Char, d.toLower = c ↔ d = c) :
    ∀ hay : List Char, needle.isPrefixOf (hay.map Char.toLower) = needle.isPrefixOf hay := by
  induction needle with
  | nil => intro hay; simp
  | cons n ns ih =>
    intro hay
    cases hay with
    | nil => rfl
    | cons d ds =>
      have hn : ∀ d : Char, d.toLower = n ↔ d = n := hfix n (by simp)
      have hns : ∀ c ∈ ns, ∀ d : Char, d.toLower = c ↔ d = c :=
        fun c hc => hfix c (by simp [hc])
      simp only [List.map_cons, List.isPrefixOf_cons₂, ih hns]
      have hbeq : (n == d.toLower) = (n == d) := by
        by_cases hd : d.toLower = n
        · obtain hdn : d = n := (hn d).mp hd
          subst hdn
          rw [hd]
        · have hd2 : d ≠ n := fun h => hd ((hn d).mpr h)
          simp [beq_iff_eq]
          exact ⟨fun h => absurd h.symm hd, fun h => absurd h.symm hd2⟩
      rw [hbeq]

/-- Substring containment is unaffected by lowering the haystack when the
needle is fixed by `Char.toLower`. -/
theorem containsL_map_toLower (needle : List Char)
    (hfix : ∀ c ∈ needle, ∀ d : Char, d.toLower = c ↔ d = c) :
    ∀ hay : List Char, containsL needle (hay.map Char.toLower) = containsL needle hay := by
  intro hay
  induction hay with
  | nil => rfl
  | cons d ds ih =>
    simp only [List.map_cons, containsL, ih]
    rw [show (Char.toLower d :: ds.map Char.toLower) = (d :: ds).map Char.toLower from rfl,
      isPrefixOf_map_toLower needle hfix (d :: ds)]

/-- Lowering the haystack does not change containment of an all-digit
needle (no character lowers onto a codepoint below 65). -/
theorem pyContains_pyLower_small (msg needle : String)
    (hsmall : ∀ c ∈ needle.data, c.toNat < 65) :
    pyContains (pyLower msg) needle = pyContains msg needle :=
  containsL_map_toLower needle.data
    (fun c hc d => toLower_eq_iff_of_small c (hsmall c hc) d) msg.data

/-- The implemented classifier agrees everywhere with the specification's
fully case-insensitive one. -/
theorem classify_refines (msg : String) : classifyError msg = specClassifyError msg := by
  have h503 : containsCI msg "503" = pyContains msg "503" := by
    show pyContains (pyLower msg) (pyLower "503") = _
    rw [show pyLower "503" = "503" from by decide]
    exact pyContains_pyLower_small msg "503" (by decide)
  have h429 : containsCI msg "429" = pyContains msg "429" := by
    show pyContains (pyLower msg) (pyLower "429") = _
    rw [show pyLower "429" = "429" from by decide]
    exact pyContains_pyLower_small msg "429" (by decide)
  have h401 : containsCI msg "401" = pyContains msg "401" := by
    show pyContains (pyLower msg) (pyLower "401") = _
    rw [show pyLower "401" = "401" from by decide]
    exact pyContains_pyLower_small msg "401" (by decide)
  have hld : containsCI msg "loading" = pyContains (pyLower msg) "loading" := by
    show pyContains (pyLower msg) (pyLower "loading") = _
    rw [show pyLower "loading" = "loading" from by decide]
  have hrl : containsCI msg "rate limit" = pyContains (pyLower msg) "rate limit" := by
    show pyContains (pyLower msg) (pyLower "rate limit") = _
    rw [show pyLower "rate limit" = "rate limit" from by decide]
  have hua : containsCI msg "unauthorized" = pyContains (pyLower msg) "unauthorized" := by
    show pyContains (pyLower msg) (pyLower "unauthorized") = _
    rw [show pyLower "unauthorized" = "unauthorized" from by decide]
  unfold classifyError specClassifyError
  rw [h503, h429, h401, hld, hrl, hua]

/-- When no needle matches, the raw message is surfaced verbatim. -/
theorem classify_unknown_display (msg : String) (h : classifyError msg = ErrorKind.Unknown) :
    errorDisplay msg = "❌ An error occurred: " ++ msg := by
  by_cases c1 : (pyContains msg "503" || pyContains (pyLower msg) "loading") = true
  · simp [classifyError, c1] at h
  · by_cases c2 : (pyContains msg "429" || pyContains (pyLower msg) "rate limit") = true
    · simp [classifyError, c1, c2] at h
    · by_cases c3 : (pyContains msg "401" || pyContains (pyLower msg) "unauthorized") = true
      · simp [classifyError, c1, c2, c3] at h
      · simp [errorDisplay, c1, c2, c3]

theorem pushRecord_length_le {Img : Type} (r : GenerationRecord Img)
    (h : List (GenerationRecord Img)) : (pushRecord r h).length ≤ 10 := by
  simp only [pushRecord]
  split
  · simp [List.length_take]
  · rename_i hcond
    simp only [List.length_cons, gt_iff_lt, not_lt] at hcond
    simpa using hcond

theorem pushRecord_head {Img : Type} (r : GenerationRecord Img)
    (h : List (GenerationRecord Img)) : (pushRecord r h).head? = some r := by
  simp only [pushRecord]
  split
  · rfl
  · rfl

theorem pushRecord_eq_take {Img : Type} (r : GenerationRecord Img)
    (h : List (GenerationRecord Img)) (hh : h.length ≤ 10) :
    pushRecord r h = (r :: h).take 10 := by
  simp only [pushRecord]
  split
  · rfl
  · rename_i hcond
    simp only [List.length_cons, gt_iff_lt, not_lt] at hcond
    rw [List.take_of_length_le]
    simpa using hcond

theorem take_append_take {α : Type} (n : Nat) (a b : List α) :
    (a ++ b.take n).take n = (a ++ b).take n := by
  rw [List.take_append_eq_append_take, List.take_append_eq_append_take, List.take_take]
  rw [Nat.min_eq_left (Nat.sub_le n a.length)]

theorem foldl_pushRecord {Img : Type} (rs : List (GenerationRecord Img)) :
    ∀ h : List (GenerationRecord Img), h.length ≤ 10 →
      rs.foldl (fun acc r => pushRecord r acc) h = (rs.reverse ++ h).take 10 := by
  induction rs with
  | nil =>
    intro h hh
    simp [List.take_of_length_le hh]
  | cons r rs ih =>
    intro h hh
    simp only [List.foldl_cons]
    rw [ih (pushRecord r h) (pushRecord_length_le r h), pushRecord_eq_take r h hh]
    rw [List.reverse_cons, List.append_assoc]
    rw [show ([r] ++ h) = r :: h from rfl]
    exact take_append_take 10 rs.reverse (r :: h)

theorem mem_pushRecord {Img : Type} (x r : GenerationRecord Img)
    (h : List (GenerationRecord Img)) (hx : x ∈ pushRecord r h) : x = r ∨ x ∈ h := by
  simp only [pushRecord] at hx
  split at hx
  · have := List.mem_of_mem_take hx
    simpa using this
  · simpa using hx

theorem composePrompt_some {raw styleKey enh : String}
    (h : composePrompt raw styleKey = some enh) :
    ∃ style_suffix, stylePresetLookup styleKey = some style_suffix ∧
      enh = pyStrip raw ++ style_suffix := by
  unfold composePrompt at h
  cases hl : stylePresetLookup styleKey with
  | none => rw [hl] at h; simp at h
  | some s =>
    rw [hl] at h
    simp at h
    exact ⟨s, rfl, h.symm⟩

theorem handleGenerate_empty {Img : Type} (remote : String → Except String Img)
    (prompt selectedStyle : String) (now : Nat) (history : List (GenerationRecord Img))
    (hempty : pyStrip prompt = "") :
    handleGenerate remote prompt selectedStyle now history =
      some (GenOutcome.warned, history) := by
  unfold handleGenerate
  rw [if_pos hempty]

theorem handleGenerate_error {Img : Type} (remote : String → Except String Img)
    (prompt selectedStyle enh emsg : String) (now : Nat)
    (history : List (GenerationRecord Img))
    (hne : pyStrip prompt ≠ "")
    (hcp : composePrompt prompt selectedStyle = some enh)
    (hrem : remote enh = Except.error emsg) :
    handleGenerate remote prompt selectedStyle now history =
      some (GenOutcome.failed (classifyError emsg) (errorDisplay emsg), history) := by
  unfold handleGenerate
  rw [if_neg hne, hcp]
  simp only [hrem]

theorem handleGenerate_ok {Img : Type} (remote : String → Except String Img)
    (prompt selectedStyle enh : String) (image : Img) (now : Nat)
    (history : List (GenerationRecord Img))
    (hne : pyStrip prompt ≠ "")
    (hcp : composePrompt prompt selectedStyle = some enh)
    (hrem : remote enh = Except.ok image) :
    handleGenerate remote prompt selectedStyle now history =
      some (GenOutcome.succeeded ⟨image, pyStrip prompt, enh, selectedStyle, now⟩,
        pushRecord ⟨image, pyStrip prompt, enh, selectedStyle, now⟩ history) := by
  unfold handleGenerate
  rw [if_neg hne, hcp]
  simp only [hrem]

theorem handleGenerate_keyError {Img : Type} (remote : String → Except String Img)
    (prompt selectedStyle : String) (now : Nat) (history : List (GenerationRecord Img))
    (hne : pyStrip prompt ≠ "")
    (hcp : composePrompt prompt selectedStyle = none) :
    handleGenerate remote prompt selectedStyle now history = none := by
  unfold handleGenerate
  rw [if_neg hne, hcp]

theorem reachable_recordWF {Img : Type} (h : List (GenerationRecord Img))
    (hr : Reachable h) : ∀ r ∈ h, recordWF r := by
  induction hr with
  | init => intro r hmem; simp at hmem
  | step e h h' hreach happ ih =>
    intro r hmem
    cases e with
    | clear =>
      simp only [applyEvent, clearHistory] at happ
      obtain rfl : ([] : List (GenerationRecord Img)) = h' := by injection happ
      simp at hmem
    | gen remote prompt selectedStyle now =>
      simp only [applyEvent] at happ
      by_cases hempty : pyStrip prompt = ""
      · rw [handleGenerate_empty remote prompt selectedStyle now h hempty] at happ
        simp only [Option.map] at happ
        obtain rfl : h = h' := by injection happ
        exact ih r hmem
      · cases hcp : composePrompt prompt selectedStyle with
        | none =>
          rw [handleGenerate_keyError remote prompt selectedStyle now h hempty hcp] at happ
          simp at happ
        | some enh =>
          cases hrem : remote enh with
          | error emsg =>
            rw [handleGenerate_error remote prompt selectedStyle enh emsg now h
              hempty hcp hrem] at happ
            simp only [Option.map] at happ
            obtain rfl : h = h' := by injection happ
            exact ih r hmem
          | ok image =>
            rw [handleGenerate_ok remote prompt selectedStyle enh image now h
              hempty hcp hrem] at happ
            simp only [Option.map] at happ
            obtain rfl :
                pushRecord ⟨image, pyStrip prompt, enh, selectedStyle, now⟩ h = h' := by
              injection happ
            rcases mem_pushRecord r _ h hmem with rfl | hold
            · obtain ⟨style_suffix, hsuf, henh⟩ := composePrompt_some hcp
              exact ⟨⟨style_suffix, hsuf, henh⟩, pyStrip_idem prompt⟩
            · exact ih r hold

/-- C1: for every rawPrompt non-empty after trimming and every recognized
styleKey, the composer returns `trim(rawPrompt) ++ suffix`, the suffix for
key "None" is empty so `compose(p, "None") = trim(p)`, and the result
starts with the trimmed prompt and ends with the configured suffix. -/
theorem composePrompt_spec (rawPrompt styleKey style_suffix : String)
    (hkey : stylePresetLookup styleKey = some style_suffix)
    (hne : pyStrip rawPrompt ≠ "") :
    composePrompt rawPrompt styleKey = some (pyStrip rawPrompt ++ style_suffix)
    ∧ stylePresetLookup "None" = some ""
    ∧ composePrompt rawPrompt "None" = some (pyStrip rawPrompt)
    ∧ (∃ rest : String, pyStrip rawPrompt ++ style_suffix = pyStrip rawPrompt ++ rest)
    ∧ (∃ stem : String, pyStrip rawPrompt ++ style_suffix = stem ++ style_suffix) := by
  refine ⟨?_, rfl, ?_, ⟨style_suffix, rfl⟩, ⟨pyStrip rawPrompt, rfl⟩⟩
  · unfold composePrompt
    rw [hkey]
    rfl
  · unfold composePrompt
    rw [show stylePresetLookup "None" = some "" from rfl]
    simp

theorem composePrompt_spec_witness :
    composePrompt "a cat" "Anime" = some (pyStrip "a cat" ++
      ", anime style, vibrant colors, Studio Ghibli inspired, detailed illustration")
    ∧ stylePresetLookup "None" = some ""
    ∧ composePrompt "a cat" "None" = some (pyStrip "a cat")
    ∧ (∃ rest : String, pyStrip "a cat" ++
        ", anime style, vibrant colors, Studio Ghibli inspired, detailed illustration" =
        pyStrip "a cat" ++ rest)
    ∧ (∃ stem : String, pyStrip "a cat" ++
        ", anime style, vibrant colors, Studio Ghibli inspired, detailed illustration" =
        stem ++ ", anime style, vibrant colors, Studio Ghibli inspired, detailed illustration") :=
  composePrompt_spec "a cat" "Anime"
    ", anime style, vibrant colors, Studio Ghibli inspired, detailed illustration"
    rfl (by decide)

/-- C2: the code's classifier agrees everywhere with the specification's
fully case-insensitive, first-match-wins, four-way classifier; the
`Unknown` branch surfaces the raw message verbatim; and the four sample
messages classify as specified. -/
theorem classifyError_spec (msg : String) :
    classifyError msg = specClassifyError msg
    ∧ (classifyError msg = ErrorKind.Unknown → errorDisplay msg = "❌ An error occurred: " ++ msg)
    ∧ classifyError "Error 503: loading" = ErrorKind.ModelLoading
    ∧ classifyError "429 Too Many Requests" = ErrorKind.RateLimited
    ∧ classifyError "401 unauthorized" = ErrorKind.Unauthorized
    ∧ classifyError "Internal Server Error" = ErrorKind.Unknown :=
  ⟨classify_refines msg, classify_unknown_display msg, rfl, rfl, rfl, rfl⟩

theorem classifyError_spec_witness :
    classifyError "Internal Server Error" = specClassifyError "Internal Server Error"
    ∧ errorDisplay "Internal Server Error" = "❌ An error occurred: " ++ "Internal Server Error" :=
  ⟨(classifyError_spec "Internal Server Error").1,
   (classifyError_spec "Internal Server Error").2.1 rfl⟩

/-- C3: a push never leaves more than 10 records, the pushed record is at
index 0, and pushing 11 records in sequence leaves exactly the 10
most-recently-pushed records in most-recent-first order. -/
theorem pushRecord_bounded {Img : Type} (r : GenerationRecord Img)
    (h : List (GenerationRecord Img)) (rs : List (GenerationRecord Img))
    (h11 : rs.length = 11) :
    (pushRecord r h).length ≤ 10
    ∧ (pushRecord r h).head? = some r
    ∧ rs.foldl (fun acc x => pushRecord x acc) [] = (rs.drop 1).reverse
    ∧ (rs.foldl (fun acc x => pushRecord x acc) []).length = 10 := by
  have hfold : rs.foldl (fun acc x => pushRecord x acc) [] = (rs.drop 1).reverse := by
    rw [foldl_pushRecord rs [] (by simp), List.append_nil]
    cases rs with
    | nil => simp at h11
    | cons r0 rest =>
      have hlen : rest.length = 10 := by simpa using h11
      rw [List.reverse_cons, List.take_append_of_le_length (by simp [hlen])]
      simp [List.take_of_length_le, hlen]
  refine ⟨pushRecord_length_le r h, pushRecord_head r h, hfold, ?_⟩
  rw [hfold]
  simp [h11]

theorem pushRecord_bounded_witness :
    (pushRecord (⟨0, "p", "p", "None", 0⟩ : GenerationRecord Nat) []).length ≤ 10
    ∧ (pushRecord (⟨0, "p", "p", "None", 0⟩ : GenerationRecord Nat) []).head? =
        some ⟨0, "p", "p", "None", 0⟩
    ∧ ((List.range 11).map
        (fun k => (⟨k, "p", "p", "None", 0⟩ : GenerationRecord Nat))).foldl
          (fun acc x => pushRecord x acc) [] =
        (((List.range 11).map
          (fun k => (⟨k, "p", "p", "None", 0⟩ : GenerationRecord Nat))).drop 1).reverse
    ∧ (((List.range 11).map
        (fun k => (⟨k, "p", "p", "None", 0⟩ : GenerationRecord Nat))).foldl
          (fun acc x => pushRecord x acc) []).length = 10 :=
  pushRecord_bounded ⟨0, "p", "p", "None", 0⟩ []
    ((List.range 11).map (fun k => ⟨k, "p", "p", "None", 0⟩)) (by simp)

/-- C4: when the remote generation call fails, the outcome is a classified
failure, the history is returned unchanged (no record pushed, none
modified), and the caller receives no image. -/
theorem failure_no_history_mutation {Img : Type}
    (remote : String → Except String Img) (prompt selectedStyle enh emsg : String)
    (now : Nat) (history : List (GenerationRecord Img))
    (hne : pyStrip prompt ≠ "")
    (hcp : composePrompt prompt selectedStyle = some enh)
    (hrem : remote enh = Except.error emsg) :
    handleGenerate remote prompt selectedStyle now history =
      some (GenOutcome.failed (classifyError emsg) (errorDisplay emsg), history)
    ∧ generate_image (remote enh) = none :=
  ⟨handleGenerate_error remote prompt selectedStyle enh emsg now history hne hcp hrem,
   by rw [hrem]; rfl⟩

theorem failure_no_history_mutation_witness :
    handleGenerate (fun _ => Except.error "boom") "a cat" "None" 3
        ([] : List (GenerationRecord Nat)) =
      some (GenOutcome.failed (classifyError "boom") (errorDisplay "boom"), [])
    ∧ generate_image ((fun (_ : String) => (Except.error "boom" : Except String Nat)) "a cat") =
        none :=
  failure_no_history_mutation (fun _ => Except.error "boom") "a cat" "None" "a cat" "boom" 3 []
    (by decide) rfl rfl

/-- C5: when the prompt is empty or whitespace-only after trimming, the
flow surfaces a validation warning and returns the history unchanged, for
every remote behaviour and style selection - neither the composer nor the
remote call can influence the result. -/
theorem empty_prompt_validation {Img : Type} (remote : String → Except String Img)
    (prompt selectedStyle : String) (now : Nat) (history : List (GenerationRecord Img))
    (hempty : pyStrip prompt = "") :
    handleGenerate remote prompt selectedStyle now history =
      some (GenOutcome.warned, history) :=
  handleGenerate_empty remote prompt selectedStyle now history hempty

theorem empty_prompt_validation_witness :
    handleGenerate (fun _ => Except.ok (0 : Nat)) "   " "NoSuchStyle" 5
        ([] : List (GenerationRecord Nat)) =
      some (GenOutcome.warned, []) :=
  empty_prompt_validation (fun _ => Except.ok 0) "   " "NoSuchStyle" 5 [] (by decide)

/-- C6: with rawPrompt "a red fox" and styleKey "Anime", the enhanced
prompt is exactly the specified string, and a successful remote call
pushes a record with that enhanced prompt and originalPrompt "a red fox"
at index 0 of the history. -/
theorem redfox_anime_end_to_end {Img : Type} (image : Img) (now : Nat)
    (history : List (GenerationRecord Img)) :
    handleGenerate (fun _ => Except.ok image) "a red fox" "Anime" now history =
      some (GenOutcome.succeeded
          ⟨image, "a red fox",
            "a red fox, anime style, vibrant colors, Studio Ghibli inspired, detailed illustration",
            "Anime", now⟩,
        pushRecord
          ⟨image, "a red fox",
            "a red fox, anime style, vibrant colors, Studio Ghibli inspired, detailed illustration",
            "Anime", now⟩ history)
    ∧ (pushRecord
        ⟨image, "a red fox",
          "a red fox, anime style, vibrant colors, Studio Ghibli inspired, detailed illustration",
          "Anime", now⟩ history).head? =
      some ⟨image, "a red fox",
        "a red fox, anime style, vibrant colors, Studio Ghibli inspired, detailed illustration",
        "Anime", now⟩ := by
  constructor
  · exact handleGenerate_ok (fun _ => Except.ok image) "a red fox" "Anime"
      "a red fox, anime style, vibrant colors, Studio Ghibli inspired, detailed illustration"
      image now history (by decide) rfl rfl
  · exact pushRecord_head _ _

/-- C7 counterexample: for the raw input " a red fox " (surrounding
whitespace), the record stored on success has prompt "a red fox", which
differs from the raw user-entered string - so the stored originalPrompt is
not the untrimmed raw input. -/
theorem storedPrompt_not_raw :
    handleGenerate (fun _ => Except.ok (0 : Nat)) " a red fox " "None" 7 [] =
      some (GenOutcome.succeeded ⟨0, "a red fox", "a red fox", "None", 7⟩,
        [⟨0, "a red fox", "a red fox", "None", 7⟩])
    ∧ ("a red fox" : String) ≠ " a red fox " := ⟨rfl, by decide⟩

/-- C7 amended: for every successful generation, the record stored in the
history has its originalPrompt field equal to the trimmed user-entered
string `pyStrip prompt`. -/
theorem storedPrompt_is_trimmed {Img : Type}
    (remote : String → Except String Img) (prompt selectedStyle enh : String)
    (image : Img) (now : Nat) (history : List (GenerationRecord Img))
    (hne : pyStrip prompt ≠ "")
    (hcp : composePrompt prompt selectedStyle = some enh)
    (hrem : remote enh = Except.ok image) :
    ∃ record : GenerationRecord Img,
      handleGenerate remote prompt selectedStyle now history =
        some (GenOutcome.succeeded record, pushRecord record history)
      ∧ record.prompt = pyStrip prompt :=
  ⟨⟨image, pyStrip prompt, enh, selectedStyle, now⟩,
   handleGenerate_ok remote prompt selectedStyle enh image now history hne hcp hrem, rfl⟩

theorem storedPrompt_is_trimmed_witness :
    ∃ record : GenerationRecord Nat,
      handleGenerate (fun _ => Except.ok 7) " a red fox " "None" 2 [] =
        some (GenOutcome.succeeded record, pushRecord record [])
      ∧ record.prompt = pyStrip " a red fox " :=
  storedPrompt_is_trimmed (fun _ => Except.ok 7) " a red fox " "None" "a red fox" 7 2 []
    (by decide) rfl rfl

/-- C8: clearing the history empties it unconditionally; clear followed by
list yields the empty sequence regardless of prior contents. -/
theorem clearHistory_empties {Img : Type} (history : List (GenerationRecord Img)) :
    clearHistory history = []
    ∧ listHistory (clearHistory history) = []
    ∧ applyEvent Event.clear history = some [] :=
  ⟨rfl, rfl, rfl⟩

/-- C9: when the credential is absent, the session halts at startup with
the instructional error message and processes no generation request: the
resulting history is empty whatever events were attempted. -/
theorem missingToken_halts {Img : Type} (events : List (Event Img))
    (token : Option String) (habs : token = none) :
    runSession token events = some (some missingTokenError, []) := by
  subst habs
  rfl

theorem missingToken_halts_witness :
    runSession none [Event.gen (fun _ => Except.ok (0 : Nat)) "a red fox" "Anime" 1] =
      some (some missingTokenError, []) :=
  missingToken_halts [Event.gen (fun _ => Except.ok 0) "a red fox" "Anime" 1] none rfl

/-- C10: every record ever held in a reachable history satisfies
`enhancedPrompt = originalPrompt ++ StylePresetTable[styleKey]` for its
own stored styleKey, and its originalPrompt equals its own trim. -/
theorem history_records_wellFormed {Img : Type} (h : List (GenerationRecord Img))
    (hr : Reachable h) : ∀ r ∈ h, recordWF r :=
  reachable_recordWF h hr

theorem history_records_wellFormed_witness :
    recordWF (⟨0, "a red fox",
      "a red fox, anime style, vibrant colors, Studio Ghibli inspired, detailed illustration",
      "Anime", 7⟩ : GenerationRecord Nat) :=
  history_records_wellFormed
    [⟨0, "a red fox",
      "a red fox, anime style, vibrant colors, Studio Ghibli inspired, detailed illustration",
      "Anime", 7⟩]
    (Reachable.step (Event.gen (fun _ => Except.ok 0) "a red fox" "Anime" 7) []
      [⟨0, "a red fox",
        "a red fox, anime style, vibrant colors, Studio Ghibli inspired, detailed illustration",
        "Anime", 7⟩]
      Reachable.init rfl)
    _ (by simp)
